import Mathlib

/-!
Shallow embedding of the transaction core of the Black Rock payment terminal
backend (config/settings.py, core/transaction.py, handlers/protocol_handler.py,
services/transaction_processor.py).  Python strings are modelled as lists of
characters, the random generator as an explicit stream of draws, network
traffic as an explicit stream of per-attempt outcomes, and raised exceptions
as Except errors.
-/

namespace BlackRock

/-- Python strings are modelled as lists of characters. -/
abbrev Str := List Char

/-- Turn a Lean string literal into the character-list model. -/
def chars (s : String) : Str := s.toList

/-- Python str.startswith, on the character-list model. -/
def startsWith : Str → Str → Bool
  | _, [] => true
  | [], _ :: _ => false
  | c :: cs, d :: ds => c == d && startsWith cs ds

/-- One entry of the PROTOCOLS table in config/settings.py: the dictionary key
together with the approval_length and is_onledger values. -/
structure ProtocolDef where
  name : Str
  approval_length : Nat
  is_onledger : Bool
deriving DecidableEq

def p101_1 : ProtocolDef := ⟨chars "POS Terminal -101.1 (4-digit approval)", 4, true⟩

def p101_4 : ProtocolDef := ⟨chars "POS Terminal -101.4 (6-digit approval)", 6, true⟩

def p101_6 : ProtocolDef := ⟨chars "POS Terminal -101.6 (Pre-authorization)", 6, true⟩

def p101_7 : ProtocolDef := ⟨chars "POS Terminal -101.7 (4-digit approval)", 4, true⟩

def p101_8 : ProtocolDef := ⟨chars "POS Terminal -101.8 (PIN-LESS transaction)", 4, false⟩

def p201_1 : ProtocolDef := ⟨chars "POS Terminal -201.1 (6-digit approval)", 6, true⟩

def p201_3 : ProtocolDef := ⟨chars "POS Terminal -201.3 (6-digit approval)", 6, false⟩

def p201_5 : ProtocolDef := ⟨chars "POS Terminal -201.5 (6-digit approval)", 6, false⟩

/-- The PROTOCOLS registry from config/settings.py. -/
def PROTOCOLS : List ProtocolDef :=
  [p101_1, p101_4, p101_6, p101_7, p101_8, p201_1, p201_3, p201_5]

/-- Dictionary lookup PROTOCOLS[name]. -/
def protocolLookup (name : Str) : Option ProtocolDef :=
  PROTOCOLS.find? (fun p => p.name == name)

/-- Python string.digits. -/
def DIGITS : Str := chars "0123456789"

/-- Python string.ascii_uppercase + string.digits. -/
def UPPER_AND_DIGITS : Str := chars "ABCDEFGHIJKLMNOPQRSTUVWXYZ0123456789"

/-- The two-character marker of offline approval codes. -/
def OF_PRE : Str := ['O', 'F']

/-- Protocol-family test string for the 101.x protocols. -/
def P101 : Str := chars "POS Terminal -101"

/-- Protocol-family test string for the 201.x protocols. -/
def P201 : Str := chars "POS Terminal -201"

/-- random.choices(alphabet, k) with the random source modelled as the stream
r of draws: the i-th chosen character is alphabet[r i % len(alphabet)]. -/
def randomChoices (alphabet : Str) (r : Nat → Nat) (k : Nat) : Str :=
  (List.range k).map (fun i => alphabet.getD (r i % alphabet.length) ' ')

/-- ProtocolHandler.validate_approval_code from handlers/protocol_handler.py.
The handler's fields approval_length / is_onledger / protocol_name are the
fields of the ProtocolDef it was constructed from. -/
def validate_approval_code (p : ProtocolDef) (approval_code : Str) : Bool :=
  if approval_code.length != p.approval_length then false
  else if startsWith approval_code OF_PRE && !p.is_onledger then
    (approval_code.drop 2).all Char.isDigit
  else if p.is_onledger then
    if startsWith p.name P101 then approval_code.all Char.isDigit
    else if startsWith p.name P201 then approval_code.all Char.isAlphanum
    else true
  else false

/-- ProtocolHandler.generate_approval_code from handlers/protocol_handler.py,
with the random source made explicit.  The Python function has no raise
statement: it always returns a string. -/
def generate_approval_code (p : ProtocolDef) (is_offline : Bool) (r : Nat → Nat) : Str :=
  if is_offline && !p.is_onledger then
    OF_PRE ++ randomChoices DIGITS r (p.approval_length - 2)
  else if startsWith p.name P101 then
    randomChoices DIGITS r p.approval_length
  else if startsWith p.name P201 then
    randomChoices UPPER_AND_DIGITS r p.approval_length
  else
    randomChoices DIGITS r p.approval_length

/-! Transaction entity (core/transaction.py). -/

/-- TransactionType enum. -/
inductive TransactionType
  | SALE | REFUND | VOID | PRE_AUTH | PRE_AUTH_COMPLETION | BALANCE_INQUIRY
deriving DecidableEq

/-- TransactionStatus enum. -/
inductive TransactionStatus
  | INITIALIZED | PROCESSING | APPROVED | DECLINED | ERROR
  | TIMEOUT | CANCELLED | OFFLINE_APPROVED | PENDING
deriving DecidableEq

/-- PaymentMethod enum. -/
inductive PaymentMethod
  | CARD_SWIPE | CARD_DIP | CARD_NFC | MANUAL_ENTRY
deriving DecidableEq

/-- The .value string of a TransactionType member. -/
def TransactionType.value : TransactionType → Str
  | .SALE => chars "SALE"
  | .REFUND => chars "REFUND"
  | .VOID => chars "VOID"
  | .PRE_AUTH => chars "PRE_AUTH"
  | .PRE_AUTH_COMPLETION => chars "PRE_AUTH_COMPLETION"
  | .BALANCE_INQUIRY => chars "BALANCE_INQUIRY"

/-- The enum constructor TransactionType(s): the member with value s, if any. -/
def TransactionType.ofValue (s : Str) : Option TransactionType :=
  if s = chars "SALE" then some .SALE
  else if s = chars "REFUND" then some .REFUND
  else if s = chars "VOID" then some .VOID
  else if s = chars "PRE_AUTH" then some .PRE_AUTH
  else if s = chars "PRE_AUTH_COMPLETION" then some .PRE_AUTH_COMPLETION
  else if s = chars "BALANCE_INQUIRY" then some .BALANCE_INQUIRY
  else none

/-- The .value string of a TransactionStatus member. -/
def TransactionStatus.value : TransactionStatus → Str
  | .INITIALIZED => chars "INITIALIZED"
  | .PROCESSING => chars "PROCESSING"
  | .APPROVED => chars "APPROVED"
  | .DECLINED => chars "DECLINED"
  | .ERROR => chars "ERROR"
  | .TIMEOUT => chars "TIMEOUT"
  | .CANCELLED => chars "CANCELLED"
  | .OFFLINE_APPROVED => chars "OFFLINE_APPROVED"
  | .PENDING => chars "PENDING"

/-- The enum constructor TransactionStatus(s). -/
def TransactionStatus.ofValue (s : Str) : Option TransactionStatus :=
  if s = chars "INITIALIZED" then some .INITIALIZED
  else if s = chars "PROCESSING" then some .PROCESSING
  else if s = chars "APPROVED" then some .APPROVED
  else if s = chars "DECLINED" then some .DECLINED
  else if s = chars "ERROR" then some .ERROR
  else if s = chars "TIMEOUT" then some .TIMEOUT
  else if s = chars "CANCELLED" then some .CANCELLED
  else if s = chars "OFFLINE_APPROVED" then some .OFFLINE_APPROVED
  else if s = chars "PENDING" then some .PENDING
  else none

/-- The .value string of a PaymentMethod member. -/
def PaymentMethod.value : PaymentMethod → Str
  | .CARD_SWIPE => chars "CARD_SWIPE"
  | .CARD_DIP => chars "CARD_DIP"
  | .CARD_NFC => chars "CARD_NFC"
  | .MANUAL_ENTRY => chars "MANUAL_ENTRY"

/-- The enum constructor PaymentMethod(s). -/
def PaymentMethod.ofValue (s : Str) : Option PaymentMethod :=
  if s = chars "CARD_SWIPE" then some .CARD_SWIPE
  else if s = chars "CARD_DIP" then some .CARD_DIP
  else if s = chars "CARD_NFC" then some .CARD_NFC
  else if s = chars "MANUAL_ENTRY" then some .MANUAL_ENTRY
  else none

/-- A Python datetime, modelled by the ISO string that serializes it:
isoformat and fromisoformat are then exact inverses, which is all the code
relies on. -/
structure DateTime where
  iso : Str
deriving DecidableEq

def DateTime.isoformat (d : DateTime) : Str := d.iso

def DateTime.fromisoformat (s : Str) : DateTime := ⟨s⟩

/-- SUPPORTED_CURRENCIES from config/settings.py. -/
def SUPPORTED_CURRENCIES : List Str :=
  [chars "USD", chars "EUR", chars "GBP", chars "BTC", chars "ETH"]

/-- MTI_TYPES keys from config/settings.py. -/
def MTI_TYPES : List Str :=
  [chars "0100", chars "0110", chars "0200", chars "0210",
   chars "0220", chars "0230", chars "0500", chars "0510"]

/-- The Transaction object: exactly the attributes set by
Transaction.__init__.  Python floats carry decimal amounts and are only ever
compared, never computed with, so the amount is modelled as a rational. -/
structure Transaction where
  transaction_id : Str
  timestamp : DateTime
  amount : ℚ
  currency : Str
  transaction_type : TransactionType
  payment_method : PaymentMethod
  protocol : Str
  merchant_id : Str
  terminal_id : Str
  is_online : Bool
  status : TransactionStatus
  approval_code : Option Str
  response_code : Option Str
  response_message : Option Str
  card_data : List (Str × Str)
  mti : Option Str
  trace_number : Str
  batch_number : Str
deriving DecidableEq

/-- Python str.zfill on the character-list model (left-pad with '0'). -/
def zfill (k : Nat) (s : Str) : Str := List.replicate (k - s.length) '0' ++ s

/-- Transaction._generate_trace_number, with the millisecond clock reading
passed in: str(ms % 1000000).zfill(6). -/
def generate_trace_number (nowMillis : Nat) : Str :=
  zfill 6 (Nat.toDigits 10 (nowMillis % 1000000))

/-- Transaction.__init__.  The generated uuid, the construction time and the
millisecond clock reading are explicit inputs; a raised ValueError is an
Except.error.  The constructor validates the protocol and the currency — and
nothing else. -/
def mkTransaction (uuid : Str) (now : DateTime) (nowMillis : Nat) (amount : ℚ)
    (currency : Str) (transaction_type : TransactionType)
    (payment_method : PaymentMethod) (protocol : Str)
    (merchant_id terminal_id : Str) (is_online : Bool) :
    Except Str Transaction :=
  if (protocolLookup protocol).isNone then
    .error (chars "Invalid protocol")
  else if currency ∉ SUPPORTED_CURRENCIES then
    .error (chars "Unsupported currency")
  else
    .ok { transaction_id := uuid
          timestamp := now
          amount := amount
          currency := currency
          transaction_type := transaction_type
          payment_method := payment_method
          protocol := protocol
          merchant_id := merchant_id
          terminal_id := terminal_id
          is_online := is_online
          status := .INITIALIZED
          approval_code := none
          response_code := none
          response_message := none
          card_data := []
          mti := none
          trace_number := generate_trace_number nowMillis
          batch_number := chars "001" }

/-- Python truthiness of the optional response_code / response_message
arguments of update_status: None and the empty string leave the stored value
unchanged. -/
def truthyOr (old newv : Option Str) : Option Str :=
  match newv with
  | none => old
  | some s => if s = [] then old else some s

/-- Transaction.update_status. -/
def update_status (t : Transaction) (status : TransactionStatus)
    (response_code response_message : Option Str) : Transaction :=
  { t with
    status := status
    response_code := truthyOr t.response_code response_code
    response_message := truthyOr t.response_message response_message }

/-- Transaction.set_approval_code: looks up the owning protocol, rejects a
code of the wrong length with a ValueError, otherwise stores the code and
forces the status to APPROVED via update_status. -/
def set_approval_code (t : Transaction) (approval_code : Str) :
    Except Str Transaction :=
  match protocolLookup t.protocol with
  | none => .error (chars "KeyError")
  | some protocol_info =>
    if approval_code.length ≠ protocol_info.approval_length then
      .error (chars "Invalid approval code length")
    else
      .ok (update_status { t with approval_code := some approval_code }
            .APPROVED none none)

/-- Transaction.set_mti: validates the code against MTI_TYPES. -/
def set_mti (t : Transaction) (mti : Str) : Except Str Transaction :=
  if mti ∈ MTI_TYPES then .ok { t with mti := some mti }
  else .error (chars "Invalid MTI")

/-- The dictionary produced by Transaction.to_dict: its exact key set.
Note that card_data is not among the keys. -/
structure TransactionDict where
  transaction_id : Str
  timestamp : Str
  amount : ℚ
  currency : Str
  transaction_type : Str
  payment_method : Str
  protocol : Str
  merchant_id : Str
  terminal_id : Str
  is_online : Bool
  status : Str
  approval_code : Option Str
  response_code : Option Str
  response_message : Option Str
  mti : Option Str
  trace_number : Str
  batch_number : Str
deriving DecidableEq

/-- Transaction.to_dict. -/
def to_dict (t : Transaction) : TransactionDict :=
  { transaction_id := t.transaction_id
    timestamp := t.timestamp.isoformat
    amount := t.amount
    currency := t.currency
    transaction_type := t.transaction_type.value
    payment_method := t.payment_method.value
    protocol := t.protocol
    merchant_id := t.merchant_id
    terminal_id := t.terminal_id
    is_online := t.is_online
    status := t.status.value
    approval_code := t.approval_code
    response_code := t.response_code
    response_message := t.response_message
    mti := t.mti
    trace_number := t.trace_number
    batch_number := t.batch_number }

/-- Transaction.from_dict: re-runs the constructor (validating protocol and
currency and parsing the enum values, each failure a raised ValueError), then
overwrites the generated identity, timestamp, status, response and trace
fields from the dictionary.  card_data has no key in the dictionary and stays
as the constructor left it. -/
def from_dict (uuid : Str) (now : DateTime) (nowMillis : Nat)
    (d : TransactionDict) : Except Str Transaction := do
  let ttype ← match TransactionType.ofValue d.transaction_type with
    | some v => Except.ok v
    | none => Except.error (chars "invalid TransactionType")
  let pm ← match PaymentMethod.ofValue d.payment_method with
    | some v => Except.ok v
    | none => Except.error (chars "invalid PaymentMethod")
  let base ← mkTransaction uuid now nowMillis d.amount d.currency ttype pm
      d.protocol d.merchant_id d.terminal_id d.is_online
  let st ← match TransactionStatus.ofValue d.status with
    | some v => Except.ok v
    | none => Except.error (chars "invalid TransactionStatus")
  Except.ok { base with
    transaction_id := d.transaction_id
    timestamp := DateTime.fromisoformat d.timestamp
    status := st
    approval_code := d.approval_code
    response_code := d.response_code
    response_message := d.response_message
    mti := d.mti
    trace_number := d.trace_number
    batch_number := d.batch_number }

/-- The status of a transaction-returning call, none when it raised. -/
def statusAfter (r : Except Str Transaction) : Option TransactionStatus :=
  match r with
  | .ok t => some t.status
  | .error _ => none

/-! Server responses and ProtocolHandler.parse_response. -/

/-- The JSON payload of a server response: each field is present or absent. -/
structure ResponseData where
  protocol : Option Str
  approved : Option Bool
  approval_code : Option Str
  response_code : Option Str
  response_message : Option Str
deriving DecidableEq

/-- The guard "protocol" in response_data and response_data["protocol"] !=
self.protocol_name. -/
def protocolMismatch (p : ProtocolDef) (rd : ResponseData) : Bool :=
  match rd.protocol with
  | some rp => rp != p.name
  | none => false

/-- ProtocolHandler.parse_response: interprets a server payload and updates
the transaction.  A ValueError raised by set_approval_code propagates to the
caller as an Except.error. -/
def parse_response (p : ProtocolDef) (rd : ResponseData) (t : Transaction) :
    Except Str Transaction :=
  if protocolMismatch p rd then
    .ok (update_status t .ERROR (some (chars "E3001"))
          (some (chars "Protocol mismatch in response")))
  else if rd.approved.getD false then
    match rd.approval_code with
    | some code =>
      if validate_approval_code p code then set_approval_code t code
      else
        .ok (update_status t .ERROR (some (chars "E3002"))
              (some (chars "Invalid approval code in response")))
    | none =>
      .ok (update_status t .ERROR (some (chars "E3003"))
            (some (chars "Missing approval code in approved response")))
  else
    .ok (update_status t .DECLINED
          (some (rd.response_code.getD (chars "D0001")))
          (some (rd.response_message.getD (chars "Transaction declined"))))

/-! Transaction processor (services/transaction_processor.py). -/

/-- ProcessorStatus enum. -/
inductive ProcessorStatus
  | IDLE | PROCESSING | ERROR | OFFLINE
deriving DecidableEq

/-- The mutable state of a TransactionProcessor that the processing path
reads and writes: connectivity flag, status, offline queue and history. -/
structure Processor where
  merchant_id : Str
  terminal_id : Str
  status : ProcessorStatus
  offline_queue : List Transaction
  transaction_history : List Transaction
  is_online : Bool
deriving DecidableEq

/-- The outcome of one network attempt of the online path: an HTTP 200
response with a JSON payload, a non-200 status code, a RequestException, or
any other unexpected exception. -/
inductive NetResult where
  | success (rd : ResponseData)
  | httpError (code : Nat)
  | transportError (msg : Str)
  | unexpectedError (msg : Str)
deriving DecidableEq

/-- The result of a processing step: ok carries the processor and transaction
after the step, error a propagating exception message together with the
processor and transaction as already mutated when it was raised. -/
abbrev ProcResult := Except (Str × Processor × Transaction) (Processor × Transaction)

/-- The hard-coded offline limit of _process_offline (1000.00). -/
def OFFLINE_LIMIT : ℚ := 1000

/-- NETWORK_SETTINGS retry_attempts, also hard-coded in _process_online. -/
def MAX_RETRIES : Nat := 3

/-- TransactionProcessor._handle_offline_mode. -/
def handle_offline_mode (proc : Processor) : Processor :=
  if proc.is_online then { proc with is_online := false, status := .OFFLINE }
  else proc

/-- TransactionProcessor._process_offline: decline over the limit without
queueing, otherwise generate an offline code, force APPROVED, reclassify to
OFFLINE_APPROVED and append to the offline queue. -/
def process_offline (proc : Processor) (t : Transaction) (r : Nat → Nat) :
    ProcResult :=
  if t.amount > OFFLINE_LIMIT then
    .ok (proc, update_status t .DECLINED (some (chars "D2001"))
          (some (chars "Transaction amount exceeds offline limit of 1000.0 "
            ++ t.currency)))
  else
    match protocolLookup t.protocol with
    | none => .error (chars "Invalid protocol", proc, t)
    | some hp =>
      let offline_code := generate_approval_code hp true r
      match set_approval_code t offline_code with
      | .error e => .error (e, proc, t)
      | .ok t1 =>
        let t2 := update_status t1 .OFFLINE_APPROVED none none
        .ok ({ proc with offline_queue := proc.offline_queue ++ [t2] }, t2)

/-- The MTI assigned per transaction type at the top of _process_online. -/
def mti_for_type : TransactionType → Str
  | .SALE => chars "0200"
  | .REFUND => chars "0200"
  | .VOID => chars "0200"
  | .PRE_AUTH => chars "0100"
  | .PRE_AUTH_COMPLETION => chars "0220"
  | .BALANCE_INQUIRY => chars "0100"

/-- Python truthiness of response_data.get("approval_code"): None and the
empty string count as missing. -/
def truthy (s : Option Str) : Option Str :=
  match s with
  | none => none
  | some v => if v = [] then none else some v

/-- The retry loop of _process_online.  net i is the outcome of the attempt
made with retry_count = i (every failed attempt increments the counter by one
and a success ends the loop, so the counter indexes the attempts).  The fuel
argument only bounds the recursion; called with MAX_RETRIES + 1 it never runs
out, because each recursive call both consumes one unit and increments
retry_count, and recursion stops once retry_count + 1 exceeds MAX_RETRIES. -/
def online_loop (net : Nat → NetResult) (r : Nat → Nat)
    (proc : Processor) (t : Transaction) :
    Nat → Nat → ProcResult
  | _, 0 => .ok (proc, t)
  | retry_count, fuel + 1 =>
    match net retry_count with
    | .success rd =>
      if rd.approved.getD false then
        match truthy rd.approval_code with
        | some code =>
          match set_approval_code t code with
          | .ok t1 => .ok (proc, t1)
          | .error e =>
            .ok (proc, update_status t .ERROR (some (chars "E9999"))
                  (some (chars "Internal error: " ++ e)))
        | none =>
          .ok (proc, update_status t .ERROR
                (some (rd.response_code.getD (chars "E2001")))
                (some (chars "Missing approval code in approved transaction")))
      else
        .ok (proc, update_status t .DECLINED
              (some (rd.response_code.getD (chars "D0001")))
              (some (rd.response_message.getD (chars "Transaction declined"))))
    | .httpError sc =>
      if retry_count + 1 ≤ MAX_RETRIES then
        online_loop net r proc t (retry_count + 1) fuel
      else
        .ok (proc, update_status t .ERROR (some (chars "E2002"))
              (some (chars "Server error: HTTP " ++ Nat.toDigits 10 sc)))
    | .transportError msg =>
      if retry_count + 1 ≤ MAX_RETRIES then
        online_loop net r proc t (retry_count + 1) fuel
      else
        match protocolLookup t.protocol with
        | none => .error (chars "KeyError", proc, t)
        | some pinfo =>
          if !pinfo.is_onledger then process_offline proc t r
          else
            .ok (handle_offline_mode proc,
                 update_status t .ERROR (some (chars "E2003"))
                   (some (chars "Connection error: " ++ msg)))
    | .unexpectedError msg =>
      .ok (proc, update_status t .ERROR (some (chars "E9999"))
            (some (chars "Internal error: " ++ msg)))

/-- TransactionProcessor._process_online: assign the MTI, move to PROCESSING,
then run the retry loop. -/
def process_online (net : Nat → NetResult) (r : Nat → Nat)
    (proc : Processor) (t : Transaction) : ProcResult :=
  match set_mti t (mti_for_type t.transaction_type) with
  | .error e => .error (e, proc, t)
  | .ok t1 =>
    let t2 := update_status t1 .PROCESSING none none
    online_loop net r proc t2 0 (MAX_RETRIES + 1)

/-- The except/finally tail of process_transaction: a propagating exception
becomes a terminal ERROR E9999, then the processor status reverts to IDLE or
OFFLINE according to connectivity and the transaction is appended to the
history. -/
def finalizeRun (branch : ProcResult) : ProcResult :=
  let caught : Processor × Transaction :=
    match branch with
    | .ok s => s
    | .error (e, p1, t1) =>
      (p1, update_status t1 .ERROR (some (chars "E9999"))
            (some (chars "Internal error: " ++ e)))
  let p2 : Processor :=
    { caught.1 with
      status := if caught.1.is_online then ProcessorStatus.IDLE
                else ProcessorStatus.OFFLINE
      transaction_history := caught.1.transaction_history ++ [caught.2] }
  .ok (p2, caught.2)

/-- TransactionProcessor.process_transaction: set the processor status to
PROCESSING, look up the protocol (a KeyError here precedes the try block and
propagates), take the routing decision, run the chosen path under the
try/except/finally modelled by finalizeRun. -/
def process_transaction (net : Nat → NetResult) (r : Nat → Nat)
    (proc : Processor) (t : Transaction) : ProcResult :=
  let proc0 : Processor := { proc with status := ProcessorStatus.PROCESSING }
  match protocolLookup t.protocol with
  | none => .error (chars "KeyError", proc0, t)
  | some protocol_info =>
    let can_process_offline := !protocol_info.is_onledger
    let should_process_online :=
      proc0.is_online && (t.is_online || !can_process_offline)
    finalizeRun
      (if should_process_online then process_online net r proc0 t
       else if can_process_offline then process_offline proc0 t r
       else .ok (proc0, update_status t .ERROR (some (chars "E1001"))
                  (some (chars "Transaction requires online processing but terminal is offline"))))

/-! Concrete fixtures used by counterexamples and witnesses. -/

/-- A well-formed transaction (valid protocol and currency) carrying
non-empty card data. -/
def tCard : Transaction :=
  { transaction_id := chars "tx-0001"
    timestamp := ⟨chars "2024-01-01T00:00:00"⟩
    amount := 50
    currency := chars "USD"
    transaction_type := .SALE
    payment_method := .CARD_NFC
    protocol := p101_1.name
    merchant_id := chars "m-1"
    terminal_id := chars "t-1"
    is_online := true
    status := .INITIALIZED
    approval_code := none
    response_code := none
    response_message := none
    card_data := [(chars "pan", chars "4111111111111111")]
    mti := none
    trace_number := chars "000001"
    batch_number := chars "001" }

/-- The same transaction already in the terminal status DECLINED. -/
def tDeclined : Transaction :=
  { tCard with
    status := .DECLINED
    response_code := some (chars "D0001")
    response_message := some (chars "Transaction declined") }

/-- A server payload approving with the 4-digit code 1234. -/
def rdApproved : ResponseData :=
  { protocol := none
    approved := some true
    approval_code := some (chars "1234")
    response_code := none
    response_message := none }

/-- A processor that is online, with empty queue and history. -/
def wProc : Processor :=
  { merchant_id := chars "m-1"
    terminal_id := chars "t-1"
    status := .IDLE
    offline_queue := []
    transaction_history := []
    is_online := true }

/-- A transaction on the offline-capable registry protocol 101.8, online
preference set, amount under the offline limit. -/
def tOffCap : Transaction :=
  { tCard with protocol := p101_8.name, amount := 100 }

/-- A transaction on the offline-capable registry protocol 201.3 with amount
exactly at the offline limit. -/
def tAtLimit : Transaction :=
  { tCard with protocol := p201_3.name, amount := 1000 }

/-- The same processor with connectivity down. -/
def wProcOff : Processor := { wProc with is_online := false }

/-- A network on which every attempt fails at the transport level. -/
def net0 : Nat → NetResult := fun _ => .transportError (chars "down")

/-! Helper lemmas about the random code generator. -/

theorem randomChoices_length (a : Str) (r : Nat → Nat) (k : Nat) :
    (randomChoices a r k).length = k := by
  simp [randomChoices]

theorem randomChoices_all (a : Str) (pred : Char → Bool) (r : Nat → Nat) (k : Nat)
    (h : ∀ n, pred (a.getD (n % a.length) ' ') = true) :
    (randomChoices a r k).all pred = true := by
  simp only [randomChoices, List.all_eq_true]
  intro c hc
  simp only [List.mem_map, List.mem_range] at hc
  obtain ⟨i, _, rfl⟩ := hc
  exact h (r i)

theorem digits_getD (n : Nat) :
    Char.isDigit (DIGITS.getD (n % DIGITS.length) ' ') = true := by
  have hlen : DIGITS.length = 10 := by decide
  rw [hlen]
  have hb : ∀ m, m < 10 → Char.isDigit (DIGITS.getD m ' ') = true := by decide
  exact hb _ (Nat.mod_lt _ (by decide))

theorem upper_getD (n : Nat) :
    Char.isAlphanum (UPPER_AND_DIGITS.getD (n % UPPER_AND_DIGITS.length) ' ') = true := by
  have hlen : UPPER_AND_DIGITS.length = 36 := by decide
  rw [hlen]
  have hb : ∀ m, m < 36 → Char.isAlphanum (UPPER_AND_DIGITS.getD m ' ') = true := by decide
  exact hb _ (Nat.mod_lt _ (by decide))

theorem randomDigits_all (r : Nat → Nat) (k : Nat) :
    (randomChoices DIGITS r k).all Char.isDigit = true :=
  randomChoices_all _ _ _ _ digits_getD

theorem randomUpper_all (r : Nat → Nat) (k : Nat) :
    (randomChoices UPPER_AND_DIGITS r k).all Char.isAlphanum = true :=
  randomChoices_all _ _ _ _ upper_getD

/-- An online code generated for a 101.x-named onledger protocol validates. -/
theorem validate_gen_101 (p : ProtocolDef) (hon : p.is_onledger = true)
    (h101 : startsWith p.name P101 = true) (r : Nat → Nat) :
    validate_approval_code p (generate_approval_code p false r) = true := by
  simp [generate_approval_code, validate_approval_code, hon, h101,
    randomChoices_length, randomDigits_all]

/-- An online code generated for a 201.x-named onledger protocol validates. -/
theorem validate_gen_201 (p : ProtocolDef) (hon : p.is_onledger = true)
    (h101 : startsWith p.name P101 = false) (h201 : startsWith p.name P201 = true)
    (r : Nat → Nat) :
    validate_approval_code p (generate_approval_code p false r) = true := by
  simp [generate_approval_code, validate_approval_code, hon, h101, h201,
    randomChoices_length, randomUpper_all]

/-- Claim C1, counterexample.  The claim states that for every protocol in the
registry an online-generated approval code validates.  It fails on the code for
every protocol with is_onledger = false: validate_approval_code falls through
all of its branches and returns false on codes that do not carry the "OF"
marker.  Concretely, for POS Terminal -101.8 (a registry protocol) the random
outcome drawing index 0 every time yields the code "0000", which the validator
rejects. -/
theorem C1_counterexample :
    p101_8 ∈ PROTOCOLS ∧
      generate_approval_code p101_8 false (fun _ => 0) = chars "0000" ∧
      validate_approval_code p101_8 (chars "0000") = false := by
  decide

/-- Claim C1, amended: for every protocol definition in the registry whose
is_onledger flag is true, validating an online-generated approval code
succeeds, for every outcome of the random generator.  (Registry protocols with
is_onledger = false do not satisfy the round-trip.) -/
theorem C1_online_roundtrip (p : ProtocolDef) (hmem : p ∈ PROTOCOLS)
    (hon : p.is_onledger = true) (r : Nat → Nat) :
    validate_approval_code p (generate_approval_code p false r) = true := by
  simp only [PROTOCOLS, List.mem_cons, List.not_mem_nil, or_false] at hmem
  rcases hmem with rfl | rfl | rfl | rfl | rfl | rfl | rfl | rfl
  · exact validate_gen_101 _ rfl (by decide) r
  · exact validate_gen_101 _ rfl (by decide) r
  · exact validate_gen_101 _ rfl (by decide) r
  · exact validate_gen_101 _ rfl (by decide) r
  · exact absurd hon (by decide)
  · exact validate_gen_201 _ rfl (by decide) (by decide) r
  · exact absurd hon (by decide)
  · exact absurd hon (by decide)

/-- Claim C1, witness: the amended round-trip at the registry protocol
POS Terminal -101.1 and the all-zero random outcome. -/
theorem C1_witness :
    p101_1 ∈ PROTOCOLS ∧ p101_1.is_onledger = true ∧
      validate_approval_code p101_1 (generate_approval_code p101_1 false (fun _ => 0)) = true :=
  ⟨by decide, by decide, C1_online_roundtrip p101_1 (by decide) (by decide) (fun _ => 0)⟩

/-- Claim C4, counterexample.  The claim states that requesting an offline
approval code for an online-only (is_onledger = true) protocol fails with an
InvalidRequest error.  The Python function has no failure path at all: for the
online-only registry protocol POS Terminal -101.1 with is_offline = True it
silently returns an online-format code, here concretely "0000". -/
theorem C4_counterexample :
    p101_1 ∈ PROTOCOLS ∧ p101_1.is_onledger = true ∧
      generate_approval_code p101_1 true (fun _ => 0) = chars "0000" := by
  decide

/-- Claim C4, amended: for every protocol whose definition marks it online-only
(is_onledger = true), generate_approval_code with offline = true does not fail;
it ignores the offline request and returns exactly the online code it would
have generated with offline = false, for every random outcome. -/
theorem C4_offline_flag_ignored (p : ProtocolDef) (hon : p.is_onledger = true)
    (off : Bool) (r : Nat → Nat) :
    generate_approval_code p off r = generate_approval_code p false r := by
  simp [generate_approval_code, hon]

/-- Claim C4, witness: the amended statement at POS Terminal -101.1 with the
offline flag set and the all-zero random outcome. -/
theorem C4_witness :
    generate_approval_code p101_1 true (fun _ => 0) =
      generate_approval_code p101_1 false (fun _ => 0) :=
  C4_offline_flag_ignored p101_1 (by decide) true (fun _ => 0)

/-- A code carrying the offline marker decomposes as 'O' :: 'F' :: rest. -/
theorem startsWith_OF (code : Str) (h : startsWith code OF_PRE = true) :
    ∃ rest, code = 'O' :: 'F' :: rest := by
  rcases code with _ | ⟨c, _ | ⟨d, rest⟩⟩
  · simp [startsWith, OF_PRE] at h
  · simp [startsWith, OF_PRE] at h
  · simp only [OF_PRE, startsWith, Bool.and_eq_true, beq_iff_eq] at h
    exact ⟨rest, by rw [h.1, h.2.1]⟩

/-- Any code whose length differs from the declared approval length is
rejected by ProtocolHandler.validate_approval_code. -/
theorem validate_length_mismatch (p : ProtocolDef) (code : Str)
    (h : code.length ≠ p.approval_length) :
    validate_approval_code p code = false := by
  simp [validate_approval_code, h]

/-- On an offline-flagged protocol, a right-length OF-code validates exactly
when its remainder is all digits. -/
theorem validate_OF_noledger (p : ProtocolDef) (hoff : p.is_onledger = false)
    (code : Str) (hlen : code.length = p.approval_length)
    (hOF : startsWith code OF_PRE = true) :
    validate_approval_code p code = (code.drop 2).all Char.isDigit := by
  simp [validate_approval_code, hlen, hOF, hoff]

/-- On an onledger protocol of the 101.x family, a right-length OF-code is
always rejected: the validator demands all-digit content and 'O' is no digit. -/
theorem validate_OF_onledger101 (p : ProtocolDef) (hon : p.is_onledger = true)
    (h101 : startsWith p.name P101 = true) (code : Str)
    (hlen : code.length = p.approval_length)
    (hOF : startsWith code OF_PRE = true) :
    validate_approval_code p code = false := by
  obtain ⟨rest, rfl⟩ := startsWith_OF code hOF
  simp [validate_approval_code, hlen, hon, h101]

/-- On an onledger protocol of the 201.x family, a right-length OF-code
validates exactly when the whole code is alphanumeric: the OF branch is
skipped and the alphanumeric online check decides. -/
theorem validate_OF_onledger201 (p : ProtocolDef) (hon : p.is_onledger = true)
    (h101 : startsWith p.name P101 = false) (h201 : startsWith p.name P201 = true)
    (code : Str) (hlen : code.length = p.approval_length)
    (_hOF : startsWith code OF_PRE = true) :
    validate_approval_code p code = code.all Char.isAlphanum := by
  simp [validate_approval_code, hlen, hon, h101, h201]

/-- Claim C5, counterexample.  The claim states that a right-length OF-code
validates exactly when the protocol is offline-incapable and the remainder is
all digits.  On the code the condition is the opposite: the validator accepts
the OF-code "OF12" for POS Terminal -101.8, an offline-capable
(is_onledger = false) registry protocol, which the claim says must be
rejected. -/
theorem C5_counterexample :
    p101_8 ∈ PROTOCOLS ∧ p101_8.is_onledger = false ∧
      (chars "OF12").length = p101_8.approval_length ∧
      startsWith (chars "OF12") OF_PRE = true ∧
      validate_approval_code p101_8 (chars "OF12") = true := by
  decide

/-- Claim C5, amended: any code of mismatched length is rejected; and for
every registry protocol and every code of the declared length starting with
"OF", validation succeeds exactly when either the protocol is offline-capable
(is_onledger = false) and the remainder after "OF" is all digits, or the
protocol is online-only of the 201.x family and the entire code is
alphanumeric (such codes reach the online alphanumeric check, which accepts
the letters 'O' and 'F'). -/
theorem C5_OF_validation :
    (∀ p ∈ PROTOCOLS, ∀ code : Str, code.length ≠ p.approval_length →
        validate_approval_code p code = false) ∧
    (∀ p ∈ PROTOCOLS, ∀ code : Str, code.length = p.approval_length →
        startsWith code OF_PRE = true →
        (validate_approval_code p code = true ↔
          (p.is_onledger = false ∧ (code.drop 2).all Char.isDigit = true) ∨
            (p.is_onledger = true ∧ startsWith p.name P201 = true ∧
              code.all Char.isAlphanum = true))) := by
  constructor
  · intro p _ code h
    exact validate_length_mismatch p code h
  · intro p hmem code hlen hOF
    simp only [PROTOCOLS, List.mem_cons, List.not_mem_nil, or_false] at hmem
    rcases hmem with rfl | rfl | rfl | rfl | rfl | rfl | rfl | rfl
    · rw [validate_OF_onledger101 _ (by decide) (by decide) code hlen hOF]
      simp [show p101_1.is_onledger = true by decide,
        show startsWith p101_1.name P201 = false by decide]
    · rw [validate_OF_onledger101 _ (by decide) (by decide) code hlen hOF]
      simp [show p101_4.is_onledger = true by decide,
        show startsWith p101_4.name P201 = false by decide]
    · rw [validate_OF_onledger101 _ (by decide) (by decide) code hlen hOF]
      simp [show p101_6.is_onledger = true by decide,
        show startsWith p101_6.name P201 = false by decide]
    · rw [validate_OF_onledger101 _ (by decide) (by decide) code hlen hOF]
      simp [show p101_7.is_onledger = true by decide,
        show startsWith p101_7.name P201 = false by decide]
    · rw [validate_OF_noledger _ (by decide) code hlen hOF]
      simp [show p101_8.is_onledger = false by decide]
    · rw [validate_OF_onledger201 _ (by decide) (by decide) (by decide) code hlen hOF]
      simp [show p201_1.is_onledger = true by decide,
        show startsWith p201_1.name P201 = true by decide]
    · rw [validate_OF_noledger _ (by decide) code hlen hOF]
      simp [show p201_3.is_onledger = false by decide]
    · rw [validate_OF_noledger _ (by decide) code hlen hOF]
      simp [show p201_5.is_onledger = false by decide]

/-- Claim C5, witness: the amended statement instantiated at a wrong-length
code for POS Terminal -101.1 and at the accepted offline code "OF1234" for the
offline-capable registry protocol POS Terminal -201.3. -/
theorem C5_witness :
    validate_approval_code p101_1 (chars "123") = false ∧
      (validate_approval_code p201_3 (chars "OF1234") = true ↔
        (p201_3.is_onledger = false ∧ ((chars "OF1234").drop 2).all Char.isDigit = true) ∨
          (p201_3.is_onledger = true ∧ startsWith p201_3.name P201 = true ∧
            (chars "OF1234").all Char.isAlphanum = true)) :=
  ⟨C5_OF_validation.1 p101_1 (by decide) (chars "123") (by decide),
   C5_OF_validation.2 p201_3 (by decide) (chars "OF1234") (by decide) (by decide)⟩

/-! Enum value round-trips, used for serialization. -/

theorem transactionType_ofValue_value (x : TransactionType) :
    TransactionType.ofValue x.value = some x := by
  cases x <;> decide

theorem transactionStatus_ofValue_value (x : TransactionStatus) :
    TransactionStatus.ofValue x.value = some x := by
  cases x <;> decide

theorem paymentMethod_ofValue_value (x : PaymentMethod) :
    PaymentMethod.ofValue x.value = some x := by
  cases x <;> decide

/-- Claim C2, counterexample.  The claim states that from_dict(to_dict(t))
equals t on all data-model fields including card_data.  to_dict has no
card_data key at all, so serializing the fixture transaction tCard (whose
card_data is non-empty) and deserializing it yields a transaction whose
card_data is empty, different from the original. -/
theorem C2_counterexample :
    tCard.card_data ≠ [] ∧
      from_dict (chars "u-fresh") ⟨chars "2024-02-02T00:00:00"⟩ 0 (to_dict tCard) =
        .ok { tCard with card_data := [] } ∧
      ({ tCard with card_data := ([] : List (Str × Str)) }) ≠ tCard := by
  refine ⟨by decide, rfl, by decide⟩

/-- Claim C2, amended: for every transaction whose protocol is in the
registry and whose currency is supported (every constructible transaction),
from_dict(to_dict(t)) succeeds and restores every serialized field —
transaction id, timestamp, amount, currency, type, payment method, protocol,
merchant and terminal ids, online flag, status, approval code, response
code/message, mti, trace number and batch number — but card_data, which is
dropped by to_dict and reset to the empty dictionary by from_dict. -/
theorem C2_roundtrip (t : Transaction) (uuid : Str) (now : DateTime)
    (nowMillis : Nat) (p : ProtocolDef)
    (hp : protocolLookup t.protocol = some p)
    (hc : t.currency ∈ SUPPORTED_CURRENCIES) :
    from_dict uuid now nowMillis (to_dict t) = .ok { t with card_data := [] } := by
  simp only [from_dict, to_dict, transactionType_ofValue_value,
    transactionStatus_ofValue_value, paymentMethod_ofValue_value,
    mkTransaction, hp, Option.isNone_some, Bool.false_eq_true, if_false, hc,
    not_true_eq_false, DateTime.fromisoformat, DateTime.isoformat]
  rfl

/-- Claim C2, witness: the amended round-trip applied to the fixture
transaction tCard. -/
theorem C2_witness :
    from_dict (chars "u-fresh") ⟨chars "2024-02-02T00:00:00"⟩ 0 (to_dict tCard) =
      .ok { tCard with card_data := [] } :=
  C2_roundtrip tCard (chars "u-fresh") ⟨chars "2024-02-02T00:00:00"⟩ 0 p101_1
    (by decide) (by decide)

/-- Claim C3, counterexample.  The claim states that setting an approval code
on a transaction already in a terminal status is rejected and that
interpreting a server response never moves a transaction backward, in
particular never from a terminal status back to APPROVED.  The code checks
only the code length: on the fixture transaction tDeclined, whose status is
the terminal DECLINED, set_approval_code succeeds and forces APPROVED, and
parse_response on an approving payload does the same. -/
theorem C3_counterexample :
    tDeclined.status = .DECLINED ∧
      statusAfter (set_approval_code tDeclined (chars "1234")) = some .APPROVED ∧
      statusAfter (parse_response p101_1 rdApproved tDeclined) = some .APPROVED := by
  refine ⟨by decide, by decide, by decide⟩

/-- Claim C3, amended: set_approval_code never inspects the current status.
For every transaction whose protocol is in the registry, it succeeds exactly
when the code has the protocol's declared length — whatever the current
status, terminal or not — and any successful call (hence also the approving
branch of parse_response, which goes through it) leaves the transaction in
status APPROVED. -/
theorem C3_set_approval_code (t : Transaction) (p : ProtocolDef) (code : Str)
    (hp : protocolLookup t.protocol = some p) :
    (code.length = p.approval_length →
      set_approval_code t code =
        .ok (update_status { t with approval_code := some code }
              .APPROVED none none)) ∧
    (code.length ≠ p.approval_length →
      set_approval_code t code = .error (chars "Invalid approval code length")) ∧
    (∀ t2, set_approval_code t code = Except.ok t2 → t2.status = .APPROVED) := by
  refine ⟨fun h => by simp [set_approval_code, hp, h],
          fun h => by simp [set_approval_code, hp, h], ?_⟩
  intro t2 h
  simp only [set_approval_code, hp] at h
  split at h
  · exact absurd h (by simp)
  · rw [← Except.ok.inj h]
    rfl

/-- Claim C3, witness: the amended statement at the DECLINED fixture
transaction and the right-length code 1234. -/
theorem C3_witness :
    set_approval_code tDeclined (chars "1234") =
      .ok (update_status { tDeclined with approval_code := some (chars "1234") }
            .APPROVED none none) :=
  (C3_set_approval_code tDeclined p101_1 (chars "1234") (by decide)).1 (by decide)

/-- Claim C6, counterexample.  The claim states that constructing a
Transaction with a non-positive amount fails with a validation error.  The
constructor validates only the protocol and the currency: with amount 0 (and
likewise any negative amount), a valid protocol and a supported currency the
construction succeeds and the transaction starts in INITIALIZED. -/
theorem C6_counterexample :
    statusAfter (mkTransaction (chars "u-1") ⟨chars "2024-01-01T00:00:00"⟩ 0 0
      (chars "USD") .SALE .MANUAL_ENTRY p101_1.name (chars "m-1") (chars "t-1")
      true) = some .INITIALIZED := by
  decide

/-- Claim C6, amended: the constructor rejects an unknown protocol, and a
known protocol with an unsupported currency, before producing any
transaction; with a known protocol and a supported currency it always
succeeds, whatever the amount — zero and negative amounts included — and the
new transaction starts in INITIALIZED carrying that amount. -/
theorem C6_constructor_validation (uuid : Str) (now : DateTime)
    (nowMillis : Nat) (amount : ℚ) (currency : Str) (ttype : TransactionType)
    (pm : PaymentMethod) (protocol : Str) (mid tid : Str) (onl : Bool) :
    ((protocolLookup protocol).isSome = true → currency ∈ SUPPORTED_CURRENCIES →
      ∃ t, mkTransaction uuid now nowMillis amount currency ttype pm protocol
            mid tid onl = .ok t ∧ t.status = .INITIALIZED ∧ t.amount = amount) ∧
    ((protocolLookup protocol).isSome = false →
      mkTransaction uuid now nowMillis amount currency ttype pm protocol
        mid tid onl = .error (chars "Invalid protocol")) ∧
    ((protocolLookup protocol).isSome = true → currency ∉ SUPPORTED_CURRENCIES →
      mkTransaction uuid now nowMillis amount currency ttype pm protocol
        mid tid onl = .error (chars "Unsupported currency")) := by
  refine ⟨?_, ?_, ?_⟩
  · intro hp hc
    obtain ⟨q, hq⟩ := Option.isSome_iff_exists.mp hp
    exact ⟨{ transaction_id := uuid, timestamp := now, amount := amount,
             currency := currency, transaction_type := ttype,
             payment_method := pm, protocol := protocol, merchant_id := mid,
             terminal_id := tid, is_online := onl, status := .INITIALIZED,
             approval_code := none, response_code := none,
             response_message := none, card_data := [], mti := none,
             trace_number := generate_trace_number nowMillis,
             batch_number := chars "001" },
           by simp [mkTransaction, hq, hc], rfl, rfl⟩
  · intro hp
    have hnone : protocolLookup protocol = none := by
      cases hcase : protocolLookup protocol with
      | none => rfl
      | some q => rw [hcase] at hp; simp at hp
    simp [mkTransaction, hnone]
  · intro hp hc
    obtain ⟨q, hq⟩ := Option.isSome_iff_exists.mp hp
    simp [mkTransaction, hq, hc]

/-- Claim C6, witness: the amended statement at a negative amount with a
valid protocol and currency, at an unknown protocol, and at an unsupported
currency. -/
theorem C6_witness :
    (∃ t, mkTransaction (chars "u-1") ⟨chars "2024-01-01T00:00:00"⟩ 0 (-5)
        (chars "USD") .SALE .MANUAL_ENTRY p101_1.name (chars "m-1")
        (chars "t-1") true = .ok t ∧ t.status = .INITIALIZED ∧ t.amount = -5) ∧
    mkTransaction (chars "u-1") ⟨chars "2024-01-01T00:00:00"⟩ 0 (-5)
        (chars "USD") .SALE .MANUAL_ENTRY (chars "no-such") (chars "m-1")
        (chars "t-1") true = .error (chars "Invalid protocol") ∧
    mkTransaction (chars "u-1") ⟨chars "2024-01-01T00:00:00"⟩ 0 (-5)
        (chars "XRP") .SALE .MANUAL_ENTRY p101_1.name (chars "m-1")
        (chars "t-1") true = .error (chars "Unsupported currency") :=
  ⟨(C6_constructor_validation (chars "u-1") ⟨chars "2024-01-01T00:00:00"⟩ 0 (-5)
      (chars "USD") .SALE .MANUAL_ENTRY p101_1.name (chars "m-1") (chars "t-1")
      true).1 (by decide) (by decide),
   (C6_constructor_validation (chars "u-1") ⟨chars "2024-01-01T00:00:00"⟩ 0 (-5)
      (chars "USD") .SALE .MANUAL_ENTRY (chars "no-such") (chars "m-1") (chars "t-1")
      true).2.1 (by decide),
   (C6_constructor_validation (chars "u-1") ⟨chars "2024-01-01T00:00:00"⟩ 0 (-5)
      (chars "XRP") .SALE .MANUAL_ENTRY p101_1.name (chars "m-1") (chars "t-1")
      true).2.2 (by decide) (by decide)⟩

/-- Claim C10, confirmed: update_status always overwrites the status with the
given value, and an absent (None) response_code argument leaves the stored
response_code unchanged, likewise an absent response_message. -/
theorem C10_update_status (t : Transaction) (s : TransactionStatus)
    (rc rm : Option Str) :
    (update_status t s rc rm).status = s ∧
    (rc = none → (update_status t s rc rm).response_code = t.response_code) ∧
    (rm = none → (update_status t s rc rm).response_message = t.response_message) := by
  refine ⟨rfl, ?_, ?_⟩ <;> rintro rfl <;> simp [update_status, truthyOr]

/-- Claim C10, witness: a status update without response details on the
fixture tDeclined keeps its earlier response_code and response_message. -/
theorem C10_witness :
    (update_status tDeclined .ERROR none none).status = .ERROR ∧
      (update_status tDeclined .ERROR none none).response_code =
        tDeclined.response_code ∧
      (update_status tDeclined .ERROR none none).response_message =
        tDeclined.response_message :=
  ⟨(C10_update_status tDeclined .ERROR none none).1,
   (C10_update_status tDeclined .ERROR none none).2.1 rfl,
   (C10_update_status tDeclined .ERROR none none).2.2 rfl⟩

/-! Support lemmas about the processor paths. -/

/-- A successful registry lookup returns a registry entry. -/
theorem protocolLookup_mem (name : Str) (p : ProtocolDef)
    (h : protocolLookup name = some p) : p ∈ PROTOCOLS :=
  List.mem_of_find?_eq_some h

/-- Every registry protocol declares an approval length of at least 2. -/
theorem registry_len (p : ProtocolDef) (hmem : p ∈ PROTOCOLS) :
    2 ≤ p.approval_length := by
  have hall : PROTOCOLS.all (fun q => decide (2 ≤ q.approval_length)) = true := by
    decide
  exact of_decide_eq_true (List.all_eq_true.mp hall p hmem)

/-- Every MTI assigned by _process_online is a key of MTI_TYPES. -/
theorem mti_for_type_mem (tt : TransactionType) : mti_for_type tt ∈ MTI_TYPES := by
  cases tt <;> decide

/-- An offline code generated for an offline-capable protocol has exactly the
declared approval length. -/
theorem offline_code_length (p : ProtocolDef) (hoff : p.is_onledger = false)
    (hlen : 2 ≤ p.approval_length) (r : Nat → Nat) :
    (generate_approval_code p true r).length = p.approval_length := by
  simp only [generate_approval_code, hoff, Bool.not_false, Bool.and_true,
    if_true, List.length_append, randomChoices_length]
  simp [OF_PRE]
  omega

/-- _process_offline on an amount within the limit: the transaction is
approved offline and appended to the offline queue exactly once. -/
theorem process_offline_under_limit (proc : Processor) (t : Transaction)
    (p : ProtocolDef) (r : Nat → Nat)
    (hp : protocolLookup t.protocol = some p) (hoff : p.is_onledger = false)
    (hamt : t.amount ≤ OFFLINE_LIMIT) :
    process_offline proc t r =
      .ok ({ proc with offline_queue := proc.offline_queue ++
               [update_status
                 (update_status
                   { t with approval_code := some (generate_approval_code p true r) }
                   .APPROVED none none)
                 .OFFLINE_APPROVED none none] },
           update_status
             (update_status
               { t with approval_code := some (generate_approval_code p true r) }
               .APPROVED none none)
             .OFFLINE_APPROVED none none) := by
  have hlen : (generate_approval_code p true r).length = p.approval_length :=
    offline_code_length p hoff (registry_len p (protocolLookup_mem _ _ hp)) r
  simp only [process_offline, not_lt.mpr hamt, if_neg (not_lt.mpr hamt), hp]
  simp [set_approval_code, hp, hlen]

/-- The retry loop under all-transport failure: attempts 0 to 3 are made,
then the exhaustion branch of the RequestException handler runs. -/
theorem online_loop_all_transport (net : Nat → NetResult) (r : Nat → Nat)
    (proc : Processor) (t : Transaction) (msgs : Nat → Str)
    (hnet : ∀ i, net i = .transportError (msgs i)) :
    online_loop net r proc t 0 (MAX_RETRIES + 1) =
      (match protocolLookup t.protocol with
       | none => .error (chars "KeyError", proc, t)
       | some pinfo =>
         if !pinfo.is_onledger then process_offline proc t r
         else .ok (handle_offline_mode proc,
                update_status t .ERROR (some (chars "E2003"))
                  (some (chars "Connection error: " ++ msgs 3)))) := by
  have h0 := hnet 0
  have h1 := hnet 1
  have h2 := hnet 2
  have h3 := hnet 3
  simp [MAX_RETRIES, online_loop, h0, h1, h2, h3]

/-- _process_online under all-transport failure, offline-capable protocol:
it falls back to _process_offline on the PROCESSING transaction. -/
theorem process_online_transport_offcap (net : Nat → NetResult) (r : Nat → Nat)
    (proc : Processor) (t : Transaction) (p : ProtocolDef) (msgs : Nat → Str)
    (hnet : ∀ i, net i = .transportError (msgs i))
    (hp : protocolLookup t.protocol = some p) (hoff : p.is_onledger = false) :
    process_online net r proc t =
      process_offline proc
        (update_status { t with mti := some (mti_for_type t.transaction_type) }
          .PROCESSING none none) r := by
  simp only [process_online, set_mti, if_pos (mti_for_type_mem t.transaction_type)]
  rw [online_loop_all_transport net r proc _ msgs hnet]
  have hp2 : protocolLookup
      (update_status { t with mti := some (mti_for_type t.transaction_type) }
        .PROCESSING none none).protocol = some p := hp
  rw [hp2]
  simp [hoff]

/-- _process_online under all-transport failure, online-only protocol: the
transaction ends ERROR E2003 and the processor connectivity flips. -/
theorem process_online_transport_onledger (net : Nat → NetResult) (r : Nat → Nat)
    (proc : Processor) (t : Transaction) (p : ProtocolDef) (msgs : Nat → Str)
    (hnet : ∀ i, net i = .transportError (msgs i))
    (hp : protocolLookup t.protocol = some p) (hon : p.is_onledger = true) :
    process_online net r proc t =
      .ok (handle_offline_mode proc,
           update_status
             (update_status { t with mti := some (mti_for_type t.transaction_type) }
               .PROCESSING none none)
             .ERROR (some (chars "E2003"))
             (some (chars "Connection error: " ++ msgs 3))) := by
  simp only [process_online, set_mti, if_pos (mti_for_type_mem t.transaction_type)]
  rw [online_loop_all_transport net r proc _ msgs hnet]
  have hp2 : protocolLookup
      (update_status { t with mti := some (mti_for_type t.transaction_type) }
        .PROCESSING none none).protocol = some p := hp
  rw [hp2]
  simp [hon]

/-- Claim C7, confirmed.  Online path with every delivery attempt failing at
the transport level (a RequestException on each of the four attempts made
with retry counter 0..3, exhausting the bound of 3 retries): if the
transaction's protocol is offline-capable, processing falls back to the
offline path in place and — for an amount within the ceiling — the
transaction ends OFFLINE_APPROVED, enqueued once on the offline queue; if
the protocol is online-only, the transaction ends ERROR with code E2003 and
the processor's connectivity flag flips to offline. -/
theorem C7_transport_exhaustion (net : Nat → NetResult) (r : Nat → Nat)
    (proc : Processor) (t : Transaction) (p : ProtocolDef) (msgs : Nat → Str)
    (hnet : ∀ i, net i = .transportError (msgs i))
    (hp : protocolLookup t.protocol = some p)
    (honline : proc.is_online = true) :
    (p.is_onledger = false → t.is_online = true → t.amount ≤ OFFLINE_LIMIT →
      ∃ proc2 t2, process_transaction net r proc t = .ok (proc2, t2) ∧
        t2.status = .OFFLINE_APPROVED ∧
        proc2.offline_queue = proc.offline_queue ++ [t2]) ∧
    (p.is_onledger = true →
      ∃ proc2 t2, process_transaction net r proc t = .ok (proc2, t2) ∧
        t2.status = .ERROR ∧ t2.response_code = some (chars "E2003") ∧
        proc2.is_online = false ∧ proc2.status = .OFFLINE) := by
  constructor
  · intro hoff htol hamt
    have hroute : process_transaction net r proc t =
        finalizeRun (process_online net r
          { proc with status := ProcessorStatus.PROCESSING } t) := by
      simp [process_transaction, hp, hoff, honline, htol]
    rw [hroute,
      process_online_transport_offcap net r _ t p msgs hnet hp hoff,
      process_offline_under_limit _
        (update_status { t with mti := some (mti_for_type t.transaction_type) }
          .PROCESSING none none) p r hp hoff hamt]
    exact ⟨_, _, rfl, rfl, rfl⟩
  · intro hon
    have hroute : process_transaction net r proc t =
        finalizeRun (process_online net r
          { proc with status := ProcessorStatus.PROCESSING } t) := by
      simp [process_transaction, hp, hon, honline]
    have hh : handle_offline_mode { proc with status := ProcessorStatus.PROCESSING } =
        { proc with status := ProcessorStatus.OFFLINE, is_online := false } := by
      simp [handle_offline_mode, honline]
    rw [hroute,
      process_online_transport_onledger net r _ t p msgs hnet hp hon, hh]
    exact ⟨_, _, rfl, rfl, rfl, rfl, rfl⟩

/-- Claim C7, witness: an online processor, the offline-capable protocol
101.8, amount 100, every attempt a transport failure — the transaction ends
OFFLINE_APPROVED and sits once in the offline queue. -/
theorem C7_witness :
    ∃ proc2 t2,
      process_transaction net0 (fun _ => 0) wProc tOffCap = .ok (proc2, t2) ∧
        t2.status = .OFFLINE_APPROVED ∧
        proc2.offline_queue = wProc.offline_queue ++ [t2] :=
  (C7_transport_exhaustion net0 (fun _ => 0) wProc tOffCap p101_8
    (fun _ => chars "down") (fun _ => rfl) (by decide) (by decide)).1
    (by decide) (by decide) (by decide)

/-- Claim C8, confirmed.  process_transaction routes online exactly when
processor.is_online AND (transaction.is_online OR NOT offline-capable) —
with can_offline = not is_onledger, the right conjunct is is_onledger; it
routes offline when that condition fails and the protocol is offline-capable;
and when the processor is offline and the protocol online-only (the only
remaining case) the transaction ends ERROR E1001 "requires online
processing", with a result independent of the network — no endpoint is
contacted. -/
theorem C8_routing (net : Nat → NetResult) (r : Nat → Nat) (proc : Processor)
    (t : Transaction) (p : ProtocolDef)
    (hp : protocolLookup t.protocol = some p) :
    ((proc.is_online && (t.is_online || p.is_onledger)) = true →
      process_transaction net r proc t =
        finalizeRun (process_online net r
          { proc with status := ProcessorStatus.PROCESSING } t)) ∧
    ((proc.is_online && (t.is_online || p.is_onledger)) = false →
      p.is_onledger = false →
      process_transaction net r proc t =
        finalizeRun (process_offline
          { proc with status := ProcessorStatus.PROCESSING } t r)) ∧
    (proc.is_online = false → p.is_onledger = true →
      ∀ net2 : Nat → NetResult,
        process_transaction net2 r proc t =
          .ok ({ proc with
                   status := ProcessorStatus.OFFLINE,
                   transaction_history := proc.transaction_history ++
                     [update_status t .ERROR (some (chars "E1001"))
                       (some (chars "Transaction requires online processing but terminal is offline"))] },
               update_status t .ERROR (some (chars "E1001"))
                 (some (chars "Transaction requires online processing but terminal is offline")))) := by
  refine ⟨?_, ?_, ?_⟩
  · intro hcond
    simp [process_transaction, hp, hcond]
  · intro hcond hoff
    have hnc : ¬(proc.is_online = true ∧ t.is_online = true) := by
      intro hand
      rw [hand.1, hand.2, hoff] at hcond
      simp at hcond
    simp [process_transaction, hp, hoff, hnc]
  · intro h1 h2 net2
    simp [process_transaction, hp, h1, h2, finalizeRun]

/-- Claim C8, witness: an offline processor and the online-only protocol
101.1 — the transaction ends ERROR E1001 with no endpoint contacted. -/
theorem C8_witness :
    process_transaction net0 (fun _ => 0) wProcOff tCard =
      .ok ({ wProcOff with
               status := ProcessorStatus.OFFLINE,
               transaction_history := wProcOff.transaction_history ++
                 [update_status tCard .ERROR (some (chars "E1001"))
                   (some (chars "Transaction requires online processing but terminal is offline"))] },
           update_status tCard .ERROR (some (chars "E1001"))
             (some (chars "Transaction requires online processing but terminal is offline"))) :=
  (C8_routing net0 (fun _ => 0) wProcOff tCard p101_1 (by decide)).2.2
    (by decide) (by decide) net0

/-- Claim C9, confirmed.  In the offline path, an amount exactly equal to
the 1000.00 ceiling is approved offline (OFFLINE_APPROVED) and appended to
the offline queue exactly once, while an amount strictly over the ceiling is
declined D2001 with the limit-exceeded message and the queue is left
untouched — the boundary is inclusive. -/
theorem C9_offline_boundary (proc : Processor) (t : Transaction)
    (p : ProtocolDef) (r : Nat → Nat)
    (hp : protocolLookup t.protocol = some p)
    (hoff : p.is_onledger = false) :
    (t.amount = OFFLINE_LIMIT →
      ∃ t2, process_offline proc t r =
          .ok ({ proc with offline_queue := proc.offline_queue ++ [t2] }, t2) ∧
        t2.status = .OFFLINE_APPROVED) ∧
    (t.amount > OFFLINE_LIMIT →
      process_offline proc t r =
        .ok (proc, update_status t .DECLINED (some (chars "D2001"))
              (some (chars "Transaction amount exceeds offline limit of 1000.0 "
                ++ t.currency)))) := by
  constructor
  · intro heq
    rw [process_offline_under_limit proc t p r hp hoff (le_of_eq heq)]
    exact ⟨_, rfl, rfl⟩
  · intro hgt
    simp [process_offline, hgt]

/-- Claim C9, witness: the offline-capable protocol 201.3 with amount
exactly 1000 is approved offline and enqueued once. -/
theorem C9_witness :
    ∃ t2, process_offline wProc tAtLimit (fun _ => 0) =
        .ok ({ wProc with offline_queue := wProc.offline_queue ++ [t2] }, t2) ∧
      t2.status = .OFFLINE_APPROVED :=
  (C9_offline_boundary wProc tAtLimit p201_3 (fun _ => 0) (by decide)
    (by decide)).1 (by decide)

end BlackRock
